import Mathlib

/-!
Shallow embedding of the per-connection protocol engine in
`hubconnection.go` (type `defaultHubConnection`), together with theorems
about its lifecycle, guarded send path, receive loop and abort broadcast.

Go's concurrency is embedded sequentially: each `select` race between a
blocking transport operation and the cancellation context is resolved by an
explicit oracle input (a `ReadEvent` for reads, an `Option GoError` race
argument for writes), and the background abort-listener goroutine of
`newHubConnection` is an explicit `watcherFire` transition that is enabled
once the derived context has ended.  Machine effects that the claims
observe (the message handed to the codec, the write completing before the
routine returns, `Abort` being triggered) are recorded in explicit event
traces.
-/

namespace SignalR

/-- Go `error` values as they occur in this code: `context.Canceled`
(produced by the cancel function of `context.WithCancel`), transport I/O
errors, and wrapped errors as produced by `eris.Wrap(err, msg)`. -/
inductive GoError where
  | contextCanceled
  | ioError (msg : String)
  | wrapped (msg : String) (cause : GoError)
deriving DecidableEq, Repr

/-- Model of `eris.Wrap(err, msg)` from the rotisserie/eris library used by
the source: wrapping a non-nil error yields a wrapped error; wrapping `nil`
yields `nil`. -/
def erisWrap (e : Option GoError) (msg : String) : Option GoError :=
  match e with
  | none => none
  | some err => some (GoError.wrapped msg err)

/-- The message model of `hubconnection.go`: `invocationMessage` (used with
`Type` 1 by `SendInvocation` and `Type` 4 by `SendStreamInvocation`),
`streamItemMessage`, `completionMessage`, `hubMessage` (ping) and
`closeMessage`.  `α` stands for Go's `interface\x7b\x7d` payload type. -/
inductive HubMessage (α : Type) where
  | invocation (type_ : Nat) (invocationID : String) (target : String)
      (arguments : List α) (streamIds : List String)
  | streamItem (type_ : Nat) (invocationID : String) (item : α)
  | completion (type_ : Nat) (invocationID : String) (result : Option α) (error : String)
  | hub (type_ : Nat)
  | close (type_ : Nat) (error : String) (allowReconnect : Bool)
deriving DecidableEq, Repr

/-- The state of a `defaultHubConnection`.  `ctxErr` is `c.ctx.Err()` (the
derived cancellation context), `parentErr` is `c.connection.Context().Err()`
(the transport's context, parent of `c.ctx`).  `abortChans` holds the ids of
registered waiter channels and `delivered` logs the error values delivered
to waiter channels by the abort listener.  `watcherFired` records whether
the abort-listener goroutine spawned in `newHubConnection` has already run
its body (it runs at most once, after `<-c.ctx.Done()`). -/
structure HubConnState where
  connected : Bool
  ctxErr : Option GoError
  parentErr : Option GoError
  lastWriteStamp : Nat
  maximumReceiveMessageSize : Nat
  abortChans : List Nat
  watcherFired : Bool
  delivered : List (Nat × Option GoError)
deriving DecidableEq, Repr

/-- Initial state built by `newHubConnection`: all fields zero-valued,
`abortChans` empty, the derived context not yet canceled. -/
def newHubConnection (maximumReceiveMessageSize : Nat) : HubConnState :=
  { connected := false
    ctxErr := none
    parentErr := none
    lastWriteStamp := 0
    maximumReceiveMessageSize := maximumReceiveMessageSize
    abortChans := []
    watcherFired := false
    delivered := [] }

/-- `Start` sets `connected` to true under the mutex, with no precondition
check. -/
def Start (s : HubConnState) : HubConnState :=
  { s with connected := true }

/-- `IsConnected` is a mutex-guarded read of `connected`. -/
def IsConnected (s : HubConnState) : Bool :=
  s.connected

/-- `LastWriteStamp` returns `c.lastWriteStamp`. -/
def LastWriteStamp (s : HubConnState) : Nat :=
  s.lastWriteStamp

/-- Effect of a context's cancel function becoming observable with cause
`e`: if the context already ended nothing changes, otherwise `ctxErr`
becomes `some e`.  Cancellation is one-directional. -/
def observeCancel (s : HubConnState) (e : GoError) : HubConnState :=
  if s.ctxErr.isSome then s else { s with ctxErr := some e }

/-- `Abort` calls `c.cancelFunc()`: the derived context ends with
`context.Canceled` if it had not ended already. -/
def Abort (s : HubConnState) : HubConnState :=
  observeCancel s GoError.contextCanceled

/-- Body of the abort-listener goroutine in `newHubConnection`, run after
`<-c.ctx.Done()`: under the mutex, if `connected` it delivers
`eris.Wrap(c.connection.Context().Err(), "connection canceled")` to every
channel in `abortChans`, clears the list and sets `connected` to false;
otherwise it does nothing to the waiters.  (`watcherFired` records that the
goroutine has run; it runs at most once.) -/
def abortListener (s : HubConnState) : HubConnState :=
  if s.connected then
    { s with
      connected := false
      abortChans := []
      delivered := s.delivered ++
        s.abortChans.map (fun ch => (ch, erisWrap s.parentErr "connection canceled"))
      watcherFired := true }
  else
    { s with watcherFired := true }

/-- Engine operations for the lifecycle state machine: the public `Start`
and `Abort` calls, cancellation of the upstream transport context with
cause `e`, the abort-listener goroutine observing `ctx.Done()`, and
registration of a waiter channel in `abortChans`. -/
inductive EngineOp where
  | start
  | abort
  | parentCancel (e : GoError)
  | watcherFire
  | registerWaiter (ch : Nat)
deriving DecidableEq, Repr

/-- One step of the lifecycle state machine.  `watcherFire` is a no-op
unless the derived context has ended and the listener has not already run;
`parentCancel` ends the derived (child) context as well. -/
def step (s : HubConnState) (op : EngineOp) : HubConnState :=
  match op with
  | EngineOp.start => Start s
  | EngineOp.abort => Abort s
  | EngineOp.parentCancel e =>
      if s.parentErr.isSome then s
      else
        { s with
          parentErr := some e
          ctxErr := if s.ctxErr.isSome then s.ctxErr else some e }
  | EngineOp.watcherFire =>
      if s.ctxErr.isSome && !s.watcherFired then abortListener s else s
  | EngineOp.registerWaiter ch =>
      { s with abortChans := s.abortChans ++ [ch] }

/-- Run a sequence of engine operations from a state. -/
def run (s : HubConnState) (ops : List EngineOp) : HubConnState :=
  ops.foldl step s

/-- Number of true-to-false transitions of `connected` along a run. -/
def falls (s : HubConnState) : List EngineOp → Nat
  | [] => 0
  | op :: rest =>
      (if s.connected && !(step s op).connected then 1 else 0) + falls (step s op) rest

/-- Observable events of one `writeMessage` call (and of `Close`):
the `lastWriteStamp` update, the `IsConnected` check, the hand-off of the
message to `protocol.WriteMessage`, the completion of that write with its
own result, a call to `Abort`, and the return of the routine. -/
inductive WriteEvent (α : Type) where
  | stampUpdated (t : Nat)
  | connCheck (c : Bool)
  | writeStarted (m : HubMessage α)
  | writeFinished (res : Option GoError)
  | abortCalled
  | returned (e : Option GoError)
deriving DecidableEq, Repr

/-- Outcome of a write routine: the connection state afterwards, the error
returned to the caller (`none` = nil), and the event trace in order. -/
structure WriteOut (α : Type) where
  state : HubConnState
  result : Option GoError
  trace : List (WriteEvent α)
deriving DecidableEq, Repr

/-- The guarded write routine `writeMessage`:
records `time.Now()` (here `now`) as `lastWriteStamp` under the mutex,
then checks `IsConnected`, failing with `eris.Wrap(c.ctx.Err(),
"hubConnection canceled")` if false; otherwise dispatches
`protocol.WriteMessage` on a goroutine and selects between its completion
and `<-c.ctx.Done()`.  `race = some e` means the context is observed done
first, with `c.ctx.Err() = e` (unless the state already recorded a cause);
the routine then still waits for the write to finish and returns the
wrapped cancellation error, not the write's result.  `race = none` means
the write finishes first with result `writeResult`; a non-nil result
triggers `Abort` and is returned unwrapped. -/
def writeMessage (s : HubConnState) (msg : HubMessage α) (now : Nat)
    (race : Option GoError) (writeResult : Option GoError) : WriteOut α :=
  let s1 := { s with lastWriteStamp := now }
  if IsConnected s1 then
    match race with
    | some e =>
        let ce := s1.ctxErr.getD e
        let r := erisWrap (some ce) "hubConnection canceled"
        { state := observeCancel s1 ce
          result := r
          trace := [WriteEvent.stampUpdated now, WriteEvent.connCheck s1.connected,
                    WriteEvent.writeStarted msg, WriteEvent.writeFinished writeResult,
                    WriteEvent.returned r] }
    | none =>
        match writeResult with
        | some werr =>
            { state := Abort s1
              result := some werr
              trace := [WriteEvent.stampUpdated now, WriteEvent.connCheck s1.connected,
                        WriteEvent.writeStarted msg, WriteEvent.writeFinished (some werr),
                        WriteEvent.abortCalled, WriteEvent.returned (some werr)] }
        | none =>
            { state := s1
              result := none
              trace := [WriteEvent.stampUpdated now, WriteEvent.connCheck s1.connected,
                        WriteEvent.writeStarted msg, WriteEvent.writeFinished none,
                        WriteEvent.returned none] }
  else
    let r := erisWrap s1.ctxErr "hubConnection canceled"
    { state := s1
      result := r
      trace := [WriteEvent.stampUpdated now, WriteEvent.connCheck s1.connected,
                WriteEvent.returned r] }

/-- `SendInvocation` builds `invocationMessage\x7bType: 1, InvocationID: id,
Target: target, Arguments: args\x7d` and forwards it to `writeMessage`. -/
def SendInvocation (s : HubConnState) (id target : String) (args : List α)
    (now : Nat) (race writeResult : Option GoError) : WriteOut α :=
  writeMessage s (HubMessage.invocation 1 id target args []) now race writeResult

/-- `SendStreamInvocation` builds `invocationMessage` with `Type: 4` and the
stream id list and forwards it to `writeMessage`. -/
def SendStreamInvocation (s : HubConnState) (id target : String) (args : List α)
    (streamIds : List String) (now : Nat) (race writeResult : Option GoError) : WriteOut α :=
  writeMessage s (HubMessage.invocation 4 id target args streamIds) now race writeResult

/-- `StreamItem` builds `streamItemMessage\x7bType: 2, InvocationID: id,
Item: item\x7d` and forwards it to `writeMessage`. -/
def StreamItem (s : HubConnState) (id : String) (item : α)
    (now : Nat) (race writeResult : Option GoError) : WriteOut α :=
  writeMessage s (HubMessage.streamItem 2 id item) now race writeResult

/-- `Completion` builds `completionMessage\x7bType: 3, InvocationID: id,
Result: result, Error: error\x7d` and forwards it to `writeMessage`. -/
def Completion (s : HubConnState) (id : String) (result : Option α) (error : String)
    (now : Nat) (race writeResult : Option GoError) : WriteOut α :=
  writeMessage s (HubMessage.completion 3 id result error) now race writeResult

/-- `Ping` builds `hubMessage\x7bType: 6\x7d` and forwards it to
`writeMessage`. -/
def Ping (s : HubConnState) (now : Nat) (race writeResult : Option GoError) : WriteOut α :=
  writeMessage s (HubMessage.hub 6) now race writeResult

/-- `Close` builds `closeMessage\x7bType: 7, Error: errorText,
AllowReconnect: allowReconnect\x7d` and calls `protocol.WriteMessage`
directly: no stamp update, no `IsConnected` check, no abort on failure; the
write's own result is returned unchanged. -/
def Close (s : HubConnState) (errorText : String) (allowReconnect : Bool)
    (writeResult : Option GoError) : WriteOut α :=
  { state := s
    result := writeResult
    trace := [WriteEvent.writeStarted (HubMessage.close 7 errorText allowReconnect),
              WriteEvent.writeFinished writeResult, WriteEvent.returned writeResult] }

/-- Result of one `protocol.ReadMessage(&buf)` call: either a complete
message (with its parse error), or incomplete together with what remains in
the buffer after the codec consumed bytes from it. -/
inductive CodecResult (α : Type) where
  | complete (m : HubMessage α) (parseErr : Option GoError)
  | incomplete (remaining : List Nat)
deriving DecidableEq, Repr

/-- Oracle for one transport read inside `Receive`.  `chunk data` is a
successful `connection.Read` returning `data` (at most
`maximumReceiveMessageSize` bytes).  `readErr n e outerCancelWins` is a
read returning `(n, e)` with `e` non-nil: the loop calls `Abort` and sends
the result; `outerCancelWins` resolves the concluding select of `Receive`,
which after that `Abort` may observe the now-done context instead of the
result channel.  `ctxDone e` means the context ends (with `c.ctx.Err() = e`)
and wins the race while this read is still in flight. -/
inductive ReadEvent where
  | chunk (data : List Nat)
  | readErr (n : Nat) (e : GoError) (outerCancelWins : Bool)
  | ctxDone (e : GoError)
deriving DecidableEq, Repr

/-- What `Receive` returns: a decoded message with the codec's parse error,
the pair `(n, readErr)` from a failed transport read (the byte count is the
`interface\x7b\x7d` value returned), a wrapped cancellation error, or
blocked (the oracle list ran out while the codec still wanted data: the Go
code would keep waiting on the transport). -/
inductive ReceiveResult (α : Type) where
  | message (m : HubMessage α) (parseErr : Option GoError)
  | readFailed (n : Nat) (e : GoError)
  | canceled (e : Option GoError)
  | blocked
deriving DecidableEq, Repr

/-- Outcome of the receive goroutine's loop: its result, the number of
transport reads that completed, and whether `Abort` was called. -/
structure LoopOut (α : Type) where
  result : ReceiveResult α
  readsUsed : Nat
  aborted : Bool
deriving DecidableEq, Repr

/-- The loop of the goroutine spawned by `Receive` (lines 122-161 of
`hubconnection.go`): call `ReadMessage` on the accumulation buffer; when
incomplete, re-append the previous chunk `data[:n]` (the codec consumed the
buffer, so the code refills it), then race one transport read against the
context.  A successful read appends its chunk to the buffer and becomes the
next `data[:n]`; a failed read triggers `Abort` and yields the read's
`(n, err)` pair (after `Abort`, `c.ctx.Err()` is `context.Canceled`, and the
concluding select of `Receive` may report that instead — see `ReadEvent`);
a context win yields `eris.Wrap(c.ctx.Err(), "hubConnection canceled")`
without waiting for the read. -/
def receiveLoop (codec : List Nat → CodecResult α) (buf lastChunk : List Nat) :
    List ReadEvent → LoopOut α
  | [] =>
    match codec buf with
    | CodecResult.complete m parseErr =>
        { result := ReceiveResult.message m parseErr, readsUsed := 0, aborted := false }
    | CodecResult.incomplete _ =>
        { result := ReceiveResult.blocked, readsUsed := 0, aborted := false }
  | ev :: rest =>
    match codec buf with
    | CodecResult.complete m parseErr =>
        { result := ReceiveResult.message m parseErr, readsUsed := 0, aborted := false }
    | CodecResult.incomplete rem =>
        match ev with
        | ReadEvent.chunk data =>
            let o := receiveLoop codec ((rem ++ lastChunk) ++ data) data rest
            { result := o.result, readsUsed := o.readsUsed + 1, aborted := o.aborted }
        | ReadEvent.readErr n e outerCancelWins =>
            if outerCancelWins then
              { result := ReceiveResult.canceled
                  (erisWrap (some GoError.contextCanceled) "hubConnection canceled")
                readsUsed := 1, aborted := true }
            else
              { result := ReceiveResult.readFailed n e, readsUsed := 1, aborted := true }
        | ReadEvent.ctxDone e =>
            { result := ReceiveResult.canceled (erisWrap (some e) "hubConnection canceled")
              readsUsed := 0, aborted := false }

/-- Outcome of a `Receive` call: result, completed transport reads, and the
connection state afterwards. -/
structure ReceiveOut (α : Type) where
  result : ReceiveResult α
  readsUsed : Nat
  state : HubConnState
deriving DecidableEq, Repr

/-- `Receive`: fails immediately with `eris.Wrap(c.ctx.Err(),
"hubConnection canceled")` when the derived context has already ended;
otherwise runs the receive loop starting from an empty accumulation buffer
(first iteration has `n = 0`, so the first refill appends nothing).  A read
failure inside the loop called `Abort`, which ends the derived context. -/
def Receive (s : HubConnState) (codec : List Nat → CodecResult α)
    (events : List ReadEvent) : ReceiveOut α :=
  match s.ctxErr with
  | some e =>
      { result := ReceiveResult.canceled (some (GoError.wrapped "hubConnection canceled" e))
        readsUsed := 0, state := s }
  | none =>
      let o := receiveLoop codec [] [] events
      { result := o.result, readsUsed := o.readsUsed
        state := if o.aborted then Abort s else s }

/-- Codec instance for the reassembly scenario of the spec: the message `m`
is complete exactly when `n` bytes have accumulated; on incomplete it has
consumed the whole buffer (per the source comment, `ReadMessage` read the
data out of the buffer). -/
def boundaryCodec (n : Nat) (m : HubMessage α) : List Nat → CodecResult α :=
  fun buf => if n ≤ buf.length then CodecResult.complete m none else CodecResult.incomplete []

/-! Helper lemmas about the guarded write routine. -/

theorem writeMessage_state_stamp {α : Type} (s : HubConnState) (msg : HubMessage α)
    (now : Nat) (race wr : Option GoError) :
    (writeMessage s msg now race wr).state.lastWriteStamp = now := by
  unfold writeMessage
  by_cases hc : s.connected
  · cases race with
    | some e => simp [IsConnected, hc, observeCancel]; split <;> rfl
    | none =>
        cases wr with
        | some w => simp [IsConnected, hc, Abort, observeCancel]; split <;> rfl
        | none => simp [IsConnected, hc]
  · simp [IsConnected, hc]

theorem writeMessage_trace_take_two {α : Type} (s : HubConnState) (msg : HubMessage α)
    (now : Nat) (race wr : Option GoError) :
    (writeMessage s msg now race wr).trace.take 2 =
      [WriteEvent.stampUpdated now, WriteEvent.connCheck s.connected] := by
  unfold writeMessage
  by_cases hc : s.connected
  · cases race with
    | some e => simp [IsConnected, hc]
    | none => cases wr <;> simp [IsConnected, hc]
  · simp [IsConnected, hc]

theorem writeMessage_started_mem {α : Type} (s : HubConnState) (hc : s.connected = true)
    (msg : HubMessage α) (now : Nat) (race wr : Option GoError) :
    WriteEvent.writeStarted msg ∈ (writeMessage s msg now race wr).trace := by
  unfold writeMessage
  cases race with
  | some e => simp [IsConnected, hc]
  | none => cases wr <;> simp [IsConnected, hc]

theorem writeMessage_not_connected {α : Type} (s : HubConnState) (hc : s.connected = false)
    (msg : HubMessage α) (now : Nat) (race wr : Option GoError) :
    writeMessage s msg now race wr =
      { state := { s with lastWriteStamp := now }
        result := erisWrap s.ctxErr "hubConnection canceled"
        trace := [WriteEvent.stampUpdated now, WriteEvent.connCheck false,
                  WriteEvent.returned (erisWrap s.ctxErr "hubConnection canceled")] } := by
  unfold writeMessage
  simp [IsConnected, hc]

/-- C8: `Close` bypasses the guarded send path: for every connection state
it hands `closeMessage\x7b7, errorText, allowReconnect\x7d` directly to the
codec's `WriteMessage`, leaves the state (in particular `lastWriteStamp`
and the cancellation context) unchanged, never calls `Abort`, and returns
the write's own result. -/
theorem close_direct_write {α : Type} (s : HubConnState) (errorText : String)
    (allowReconnect : Bool) (wr : Option GoError) :
    (Close s errorText allowReconnect wr : WriteOut α).state = s ∧
    LastWriteStamp (Close s errorText allowReconnect wr : WriteOut α).state =
      LastWriteStamp s ∧
    (Close s errorText allowReconnect wr : WriteOut α).result = wr ∧
    WriteEvent.writeStarted (HubMessage.close 7 errorText allowReconnect) ∈
      (Close s errorText allowReconnect wr : WriteOut α).trace ∧
    WriteEvent.abortCalled ∉ (Close s errorText allowReconnect wr : WriteOut α).trace := by
  refine ⟨rfl, rfl, rfl, ?_, ?_⟩ <;> simp [Close]

/-- C10: every guarded send records `now` as `lastWriteStamp` before the
connectivity check, so even a call rejected as not connected advances the
stamp; the trace of `writeMessage` starts with the stamp update followed by
the `IsConnected` check. -/
theorem lastWriteStamp_updated_before_check {α : Type} (s : HubConnState)
    (id target : String) (args : List α) (streamIds : List String) (item : α)
    (result : Option α) (error : String) (msg : HubMessage α)
    (now : Nat) (race wr : Option GoError) :
    LastWriteStamp (SendInvocation s id target args now race wr).state = now ∧
    LastWriteStamp (SendStreamInvocation s id target args streamIds now race wr).state = now ∧
    LastWriteStamp (StreamItem s id item now race wr).state = now ∧
    LastWriteStamp (Completion s id result error now race wr).state = now ∧
    LastWriteStamp (Ping s now race wr : WriteOut α).state = now ∧
    (writeMessage s msg now race wr).trace.take 2 =
      [WriteEvent.stampUpdated now, WriteEvent.connCheck (IsConnected s)] :=
  ⟨writeMessage_state_stamp s _ now race wr, writeMessage_state_stamp s _ now race wr,
   writeMessage_state_stamp s _ now race wr, writeMessage_state_stamp s _ now race wr,
   writeMessage_state_stamp s _ now race wr, writeMessage_trace_take_two s msg now race wr⟩

/-- C7: each public send operation hands the codec exactly the message with
its protocol tag and the supplied fields: `SendInvocation` tag 1,
`SendStreamInvocation` tag 4, `StreamItem` tag 2, `Completion` tag 3,
`Ping` tag 6, `Close` tag 7. -/
theorem send_message_shapes {α : Type} (s : HubConnState) (hc : s.connected = true)
    (id target : String) (args : List α) (streamIds : List String) (item : α)
    (result : Option α) (error closeErr : String) (allowReconnect : Bool)
    (now : Nat) (race wr : Option GoError) :
    WriteEvent.writeStarted (HubMessage.invocation 1 id target args []) ∈
      (SendInvocation s id target args now race wr).trace ∧
    WriteEvent.writeStarted (HubMessage.invocation 4 id target args streamIds) ∈
      (SendStreamInvocation s id target args streamIds now race wr).trace ∧
    WriteEvent.writeStarted (HubMessage.streamItem 2 id item) ∈
      (StreamItem s id item now race wr).trace ∧
    WriteEvent.writeStarted (HubMessage.completion 3 id result error) ∈
      (Completion s id result error now race wr).trace ∧
    WriteEvent.writeStarted (HubMessage.hub 6) ∈ (Ping s now race wr : WriteOut α).trace ∧
    WriteEvent.writeStarted (HubMessage.close 7 closeErr allowReconnect) ∈
      (Close s closeErr allowReconnect wr : WriteOut α).trace :=
  ⟨writeMessage_started_mem s hc _ now race wr, writeMessage_started_mem s hc _ now race wr,
   writeMessage_started_mem s hc _ now race wr, writeMessage_started_mem s hc _ now race wr,
   writeMessage_started_mem s hc _ now race wr, by simp [Close]⟩

/-- C4: when the cancellation context ends while a guarded write is in
flight, the routine still waits for `WriteMessage` to finish (the write
completion precedes the return in the trace) and returns the wrapped
cancellation error, not the write's own result (the returned error does not
depend on the write's result). -/
theorem cancelRace_waits_for_write {α : Type} (s : HubConnState) (hc : s.connected = true)
    (msg : HubMessage α) (now : Nat) (e : GoError) (wr wr2 : Option GoError) :
    (writeMessage s msg now (some e) wr).trace =
      [WriteEvent.stampUpdated now, WriteEvent.connCheck true,
       WriteEvent.writeStarted msg, WriteEvent.writeFinished wr,
       WriteEvent.returned (some (GoError.wrapped "hubConnection canceled" (s.ctxErr.getD e)))] ∧
    (writeMessage s msg now (some e) wr).result =
      some (GoError.wrapped "hubConnection canceled" (s.ctxErr.getD e)) ∧
    (writeMessage s msg now (some e) wr).result = (writeMessage s msg now (some e) wr2).result := by
  unfold writeMessage
  simp [IsConnected, hc, erisWrap]

/-- C1 (amended): any guarded send invoked while `connected` is false never
reaches the codec (the trace holds no write event) and returns
`eris.Wrap(ctx.Err(), "hubConnection canceled")`: after `Abort` or upstream
cancellation this is a failure wrapping the termination cause, but before
`Start`, when the context has not ended, the wrap of a nil cause is nil and
the call returns success without writing. -/
theorem guardedSend_notConnected_wrap {α : Type} (s : HubConnState) (hc : s.connected = false)
    (id target : String) (args : List α) (streamIds : List String) (item : α)
    (result : Option α) (error : String) (now : Nat) (race wr : Option GoError) :
    (SendInvocation s id target args now race wr).result =
      erisWrap s.ctxErr "hubConnection canceled" ∧
    (SendStreamInvocation s id target args streamIds now race wr).result =
      erisWrap s.ctxErr "hubConnection canceled" ∧
    (StreamItem s id item now race wr).result = erisWrap s.ctxErr "hubConnection canceled" ∧
    (Completion s id result error now race wr).result =
      erisWrap s.ctxErr "hubConnection canceled" ∧
    (Ping s now race wr : WriteOut α).result = erisWrap s.ctxErr "hubConnection canceled" ∧
    (∀ m : HubMessage α, WriteEvent.writeStarted m ∉ (Ping s now race wr : WriteOut α).trace) ∧
    (∀ e : GoError, s.ctxErr = some e →
      (Ping s now race wr : WriteOut α).result =
        some (GoError.wrapped "hubConnection canceled" e)) := by
  refine ⟨?_, ?_, ?_, ?_, ?_, ?_, ?_⟩
  · rw [SendInvocation, writeMessage_not_connected s hc]
  · rw [SendStreamInvocation, writeMessage_not_connected s hc]
  · rw [StreamItem, writeMessage_not_connected s hc]
  · rw [Completion, writeMessage_not_connected s hc]
  · rw [Ping, writeMessage_not_connected s hc]
  · intro m
    rw [Ping, writeMessage_not_connected s hc]
    simp
  · intro e he
    rw [Ping, writeMessage_not_connected s hc]
    simp [erisWrap, he]

/-- C1 counterexample: a guarded send before `Start` (context not ended)
returns a nil error, not a Not-Connected failure, while never reaching the
codec. -/
theorem guardedSend_beforeStart_returns_nil :
    (Ping (newHubConnection 0) 5 none none : WriteOut Nat).result = none ∧
    (Ping (newHubConnection 0) 5 none none : WriteOut Nat).trace =
      [WriteEvent.stampUpdated 5, WriteEvent.connCheck false, WriteEvent.returned none] := by
  decide

theorem send_message_shapes_witness :
    WriteEvent.writeStarted (HubMessage.invocation 1 "i" "t" [7] []) ∈
      (SendInvocation (Start (newHubConnection 0)) "i" "t" [7] 3 none none).trace ∧
    WriteEvent.writeStarted (HubMessage.invocation 4 "i" "t" [7] ["a"]) ∈
      (SendStreamInvocation (Start (newHubConnection 0)) "i" "t" [7] ["a"] 3 none none).trace ∧
    WriteEvent.writeStarted (HubMessage.streamItem 2 "i" 9) ∈
      (StreamItem (Start (newHubConnection 0)) "i" 9 3 none none).trace ∧
    WriteEvent.writeStarted (HubMessage.completion 3 "i" (some 1) "e") ∈
      (Completion (Start (newHubConnection 0)) "i" (some 1) "e" 3 none none).trace ∧
    WriteEvent.writeStarted (HubMessage.hub 6) ∈
      (Ping (Start (newHubConnection 0)) 3 none none : WriteOut Nat).trace ∧
    WriteEvent.writeStarted (HubMessage.close 7 "c" false) ∈
      (Close (Start (newHubConnection 0)) "c" false none : WriteOut Nat).trace :=
  send_message_shapes (Start (newHubConnection 0)) (by decide) "i" "t" [7] ["a"] 9
    (some 1) "e" "c" false 3 none none

theorem cancelRace_waits_for_write_witness :
    (writeMessage (Start (newHubConnection 0)) (HubMessage.hub 6 : HubMessage Nat) 4
        (some GoError.contextCanceled) none).trace =
      [WriteEvent.stampUpdated 4, WriteEvent.connCheck true,
       WriteEvent.writeStarted (HubMessage.hub 6), WriteEvent.writeFinished none,
       WriteEvent.returned
         (some (GoError.wrapped "hubConnection canceled" GoError.contextCanceled))] ∧
    (writeMessage (Start (newHubConnection 0)) (HubMessage.hub 6 : HubMessage Nat) 4
        (some GoError.contextCanceled) none).result =
      some (GoError.wrapped "hubConnection canceled" GoError.contextCanceled) ∧
    (writeMessage (Start (newHubConnection 0)) (HubMessage.hub 6 : HubMessage Nat) 4
        (some GoError.contextCanceled) none).result =
      (writeMessage (Start (newHubConnection 0)) (HubMessage.hub 6 : HubMessage Nat) 4
        (some GoError.contextCanceled) (some (GoError.ioError "w"))).result :=
  cancelRace_waits_for_write (Start (newHubConnection 0)) (by decide) (HubMessage.hub 6) 4
    GoError.contextCanceled none (some (GoError.ioError "w"))

theorem guardedSend_notConnected_wrap_witness :
    (Ping (Abort (newHubConnection 0)) 5 none none : WriteOut Nat).result =
      some (GoError.wrapped "hubConnection canceled" GoError.contextCanceled) ∧
    WriteEvent.writeStarted (HubMessage.hub 6) ∉
      (Ping (Abort (newHubConnection 0)) 5 none none : WriteOut Nat).trace :=
  ⟨(guardedSend_notConnected_wrap (Abort (newHubConnection 0)) (by decide) "i" "t"
      ([] : List Nat) [] 0 none "" 5 none none).2.2.2.2.2.2 GoError.contextCanceled (by decide),
   (guardedSend_notConnected_wrap (Abort (newHubConnection 0)) (by decide) "i" "t"
      ([] : List Nat) [] 0 none "" 5 none none).2.2.2.2.2.1 (HubMessage.hub 6)⟩

/-- C2: `Receive` reassembles one message whose bytes arrive across two
bounded transport reads, each capped at `maximumReceiveMessageSize` bytes,
for every placement of the codec's completion boundary that requires both
reads: with the boundary at `n` bytes, chunks `c1` then `c2`, the fully
decoded message is returned after exactly two transport reads. -/
theorem receive_reassembles_two_reads {α : Type} (s : HubConnState) (hs : s.ctxErr = none)
    (n : Nat) (m : HubMessage α) (c1 c2 : List Nat)
    (hmax1 : c1.length ≤ s.maximumReceiveMessageSize)
    (hmax2 : c2.length ≤ s.maximumReceiveMessageSize)
    (h1 : c1.length < n) (h2 : n ≤ c1.length + c2.length) :
    Receive s (boundaryCodec n m) [ReadEvent.chunk c1, ReadEvent.chunk c2] =
      { result := ReceiveResult.message m none, readsUsed := 2, state := s } := by
  have h0 : ¬ n ≤ 0 := by omega
  have hA : ¬ n ≤ c1.length := by omega
  simp [Receive, hs, receiveLoop, boundaryCodec, List.length_append, h0, hA, h2]

theorem receive_reassembles_two_reads_witness :
    Receive (newHubConnection 32)
        (boundaryCodec 50 (HubMessage.hub 6) : List Nat → CodecResult Nat)
        [ReadEvent.chunk (List.replicate 32 0), ReadEvent.chunk (List.replicate 18 0)] =
      { result := ReceiveResult.message (HubMessage.hub 6) none, readsUsed := 2
        state := newHubConnection 32 } :=
  receive_reassembles_two_reads (newHubConnection 32) rfl 50 (HubMessage.hub 6)
    (List.replicate 32 0) (List.replicate 18 0) (by decide) (by decide) (by decide) (by decide)

/-- C6: `Receive` fails immediately with the wrapped cancellation error when
the derived context has already ended (no transport read happens), and when
the context ends while a transport read is in flight, the loop returns the
wrapped cancellation error at once, independent of the remaining oracle
(the in-flight read is not waited for). -/
theorem receive_cancellation {α : Type} (s : HubConnState) (e : GoError)
    (hs : s.ctxErr = some e) (codec codec2 : List Nat → CodecResult α)
    (events : List ReadEvent) (buf lastChunk rem : List Nat)
    (hcodec : codec2 buf = CodecResult.incomplete rem) (e2 : GoError)
    (rest : List ReadEvent) :
    Receive s codec events =
      { result := ReceiveResult.canceled (some (GoError.wrapped "hubConnection canceled" e))
        readsUsed := 0, state := s } ∧
    receiveLoop codec2 buf lastChunk (ReadEvent.ctxDone e2 :: rest) =
      { result := ReceiveResult.canceled (some (GoError.wrapped "hubConnection canceled" e2))
        readsUsed := 0, aborted := false } := by
  constructor
  · simp [Receive, hs]
  · simp [receiveLoop, hcodec, erisWrap]

theorem receive_cancellation_witness :
    Receive (Abort (newHubConnection 8))
        (boundaryCodec 50 (HubMessage.hub 6) : List Nat → CodecResult Nat) [] =
      { result := ReceiveResult.canceled
          (some (GoError.wrapped "hubConnection canceled" GoError.contextCanceled))
        readsUsed := 0, state := Abort (newHubConnection 8) } ∧
    receiveLoop (boundaryCodec 50 (HubMessage.hub 6) : List Nat → CodecResult Nat) [] []
        [ReadEvent.ctxDone (GoError.ioError "eof")] =
      { result := ReceiveResult.canceled
          (some (GoError.wrapped "hubConnection canceled" (GoError.ioError "eof")))
        readsUsed := 0, aborted := false } :=
  receive_cancellation (Abort (newHubConnection 8)) GoError.contextCanceled (by decide)
    (boundaryCodec 50 (HubMessage.hub 6)) (boundaryCodec 50 (HubMessage.hub 6)) [] [] [] []
    (by decide) (GoError.ioError "eof") []

/-- C5 (amended): a failed transport read inside `Receive` triggers `Abort`
and then returns either the read's own `(n, err)` result or, when the
concluding select observes the context that this very `Abort` has just
canceled, a wrapped cancellation error; a failed guarded write triggers
`Abort` and returns that write error; `Close` neither aborts nor changes
the state when its write fails, and returns that error. -/
theorem transport_failure_aborts {α : Type} (s t u : HubConnState)
    (hs : s.ctxErr = none) (ht : t.connected = true)
    (codec : List Nat → CodecResult α) (rem : List Nat)
    (hcodec : codec [] = CodecResult.incomplete rem)
    (nr : Nat) (re we ce : GoError) (rest : List ReadEvent)
    (msg : HubMessage α) (now : Nat) (closeErr : String) (ar : Bool) :
    Receive s codec (ReadEvent.readErr nr re false :: rest) =
      { result := ReceiveResult.readFailed nr re, readsUsed := 1, state := Abort s } ∧
    Receive s codec (ReadEvent.readErr nr re true :: rest) =
      { result := ReceiveResult.canceled
          (some (GoError.wrapped "hubConnection canceled" GoError.contextCanceled))
        readsUsed := 1, state := Abort s } ∧
    writeMessage t msg now none (some we) =
      { state := Abort { t with lastWriteStamp := now }, result := some we
        trace := [WriteEvent.stampUpdated now, WriteEvent.connCheck true,
                  WriteEvent.writeStarted msg, WriteEvent.writeFinished (some we),
                  WriteEvent.abortCalled, WriteEvent.returned (some we)] } ∧
    (Close u closeErr ar (some ce) : WriteOut α).state = u ∧
    (Close u closeErr ar (some ce) : WriteOut α).result = some ce ∧
    WriteEvent.abortCalled ∉ (Close u closeErr ar (some ce) : WriteOut α).trace := by
  refine ⟨?_, ?_, ?_, rfl, rfl, ?_⟩
  · simp [Receive, hs, receiveLoop, hcodec]
  · simp [Receive, hs, receiveLoop, hcodec, erisWrap]
  · unfold writeMessage
    simp [IsConnected, ht]
  · simp [Close]

theorem transport_failure_aborts_witness :
    Receive (newHubConnection 4)
        (fun _ => CodecResult.incomplete ([] : List Nat) : List Nat → CodecResult Nat)
        [ReadEvent.readErr 0 (GoError.ioError "r") false] =
      { result := ReceiveResult.readFailed 0 (GoError.ioError "r"), readsUsed := 1
        state := Abort (newHubConnection 4) } ∧
    Receive (newHubConnection 4)
        (fun _ => CodecResult.incomplete ([] : List Nat) : List Nat → CodecResult Nat)
        [ReadEvent.readErr 0 (GoError.ioError "r") true] =
      { result := ReceiveResult.canceled
          (some (GoError.wrapped "hubConnection canceled" GoError.contextCanceled))
        readsUsed := 1, state := Abort (newHubConnection 4) } ∧
    writeMessage (Start (newHubConnection 4)) (HubMessage.hub 6 : HubMessage Nat) 9 none
        (some (GoError.ioError "w")) =
      { state := Abort { Start (newHubConnection 4) with lastWriteStamp := 9 }
        result := some (GoError.ioError "w")
        trace := [WriteEvent.stampUpdated 9, WriteEvent.connCheck true,
                  WriteEvent.writeStarted (HubMessage.hub 6),
                  WriteEvent.writeFinished (some (GoError.ioError "w")),
                  WriteEvent.abortCalled,
                  WriteEvent.returned (some (GoError.ioError "w"))] } ∧
    (Close (Abort (newHubConnection 4)) "bye" false (some (GoError.ioError "c")) :
        WriteOut Nat).state = Abort (newHubConnection 4) ∧
    (Close (Abort (newHubConnection 4)) "bye" false (some (GoError.ioError "c")) :
        WriteOut Nat).result = some (GoError.ioError "c") ∧
    WriteEvent.abortCalled ∉
      (Close (Abort (newHubConnection 4)) "bye" false (some (GoError.ioError "c")) :
        WriteOut Nat).trace :=
  transport_failure_aborts (newHubConnection 4) (Start (newHubConnection 4))
    (Abort (newHubConnection 4)) rfl (by decide) (fun _ => CodecResult.incomplete [])
    [] rfl 0 (GoError.ioError "r") (GoError.ioError "w") (GoError.ioError "c") []
    (HubMessage.hub 6) 9 "bye" false

/-- C5 counterexample: in the schedule where the concluding select of
`Receive` observes the context just canceled by the loop's own `Abort`, a
failed transport read makes `Receive` return a wrapped cancellation error
instead of that read error. -/
theorem readError_may_return_cancellation :
    (Receive (Start (newHubConnection 32))
        (fun _ => CodecResult.incomplete ([] : List Nat) : List Nat → CodecResult Nat)
        [ReadEvent.readErr 0 (GoError.ioError "read failed") true]).result =
      ReceiveResult.canceled
        (some (GoError.wrapped "hubConnection canceled" GoError.contextCanceled)) := by
  decide

/-! Helper lemmas about the lifecycle state machine. -/

theorem step_watcherFired_mono (s : HubConnState) (op : EngineOp)
    (h : s.watcherFired = true) : (step s op).watcherFired = true := by
  cases op <;>
    simp only [step, Start, Abort, observeCancel, abortListener, h, Bool.not_true,
      Bool.and_false, Bool.false_eq_true, if_false] <;>
    split <;> simp [h]

theorem run_watcherFired_mono (ops : List EngineOp) :
    ∀ s : HubConnState, s.watcherFired = true → (run s ops).watcherFired = true := by
  induction ops with
  | nil => intro s h; exact h
  | cons op rest ih => intro s h; exact ih (step s op) (step_watcherFired_mono s op h)

theorem step_keeps_connected_of_fired (s : HubConnState) (op : EngineOp)
    (hf : s.watcherFired = true) (hc : s.connected = true) :
    (step s op).connected = true := by
  cases op <;>
    simp only [step, Start, Abort, observeCancel, abortListener, hf, hc, Bool.not_true,
      Bool.and_false, Bool.false_eq_true, if_false] <;>
    split <;> simp [hc]

theorem falls_zero_of_fired (ops : List EngineOp) :
    ∀ s : HubConnState, s.watcherFired = true → falls s ops = 0 := by
  induction ops with
  | nil => intro s _; rfl
  | cons op rest ih =>
      intro s h
      have hrec : falls (step s op) rest = 0 := ih (step s op) (step_watcherFired_mono s op h)
      show (if s.connected && !(step s op).connected then 1 else 0) + falls (step s op) rest = 0
      rw [hrec]
      by_cases hc : s.connected = true
      · simp [hc, step_keeps_connected_of_fired s op h hc]
      · have hc2 : s.connected = false := by
          revert hc; cases s.connected <;> simp
        simp [hc2]

theorem fall_sets_fired (s : HubConnState) (op : EngineOp)
    (hc : s.connected = true) (hd : (step s op).connected = false) :
    (step s op).watcherFired = true := by
  cases op with
  | start => simp [step, Start] at hd
  | abort =>
      exfalso
      rw [step] at hd
      unfold Abort observeCancel at hd
      split at hd <;> rw [hd] at hc <;> exact Bool.false_ne_true hc
  | parentCancel e =>
      exfalso
      rw [step] at hd
      split at hd <;> rw [hd] at hc <;> exact Bool.false_ne_true hc
  | registerWaiter ch =>
      exfalso
      rw [step] at hd
      rw [hd] at hc
      exact Bool.false_ne_true hc
  | watcherFire =>
      rw [step] at hd ⊢
      by_cases hcond : (s.ctxErr.isSome && !s.watcherFired) = true
      · rw [if_pos hcond]
        unfold abortListener
        rw [if_pos hc]
      · rw [if_neg hcond] at hd
        rw [hd] at hc
        exact absurd hc Bool.false_ne_true

theorem falls_le_one (ops : List EngineOp) : ∀ s : HubConnState, falls s ops ≤ 1 := by
  induction ops with
  | nil => intro s; exact Nat.le_of_eq rfl |>.trans (Nat.zero_le 1)
  | cons op rest ih =>
      intro s
      show (if s.connected && !(step s op).connected then 1 else 0) + falls (step s op) rest ≤ 1
      by_cases hcond : (s.connected && !(step s op).connected) = true
      · have hc : s.connected = true := (Bool.and_eq_true _ _ |>.mp hcond).1
        have hd : (step s op).connected = false := by
          have := (Bool.and_eq_true _ _ |>.mp hcond).2
          revert this; cases (step s op).connected <;> simp
        rw [if_pos hcond, falls_zero_of_fired rest (step s op) (fall_sets_fired s op hc hd)]
      · rw [if_neg hcond, Nat.zero_add]
        exact ih (step s op)

theorem step_not_connected_of_not_start (s : HubConnState) (op : EngineOp)
    (hc : s.connected = false) (hop : op ≠ EngineOp.start) :
    (step s op).connected = false := by
  cases op with
  | start => exact absurd rfl hop
  | abort =>
      rw [step]
      unfold Abort observeCancel
      split <;> simp [hc]
  | parentCancel e => rw [step]; split <;> simp [hc]
  | registerWaiter ch => rw [step]; exact hc
  | watcherFire =>
      rw [step]
      split
      · unfold abortListener
        rw [hc]
        simp [hc]
      · exact hc

theorem run_connected_needs_start (ops : List EngineOp) :
    ∀ s : HubConnState, s.connected = false → (run s ops).connected = true →
      EngineOp.start ∈ ops := by
  induction ops with
  | nil =>
      intro s hc hr
      exact absurd (hc ▸ hr) (by simp)
  | cons op rest ih =>
      intro s hc hr
      by_cases hop : op = EngineOp.start
      · exact hop ▸ List.mem_cons_self op rest
      · exact List.mem_cons_of_mem op
          (ih (step s op) (step_not_connected_of_not_start s op hc hop) hr)

theorem step_delivered_stable_of_fired (s : HubConnState) (op : EngineOp)
    (h : s.watcherFired = true) : (step s op).delivered = s.delivered := by
  cases op <;>
    simp only [step, Start, Abort, observeCancel, abortListener, h, Bool.not_true,
      Bool.and_false, Bool.false_eq_true, if_false] <;>
    split <;> simp

theorem run_delivered_stable (ops : List EngineOp) :
    ∀ t : HubConnState, t.watcherFired = true → (run t ops).delivered = t.delivered := by
  induction ops with
  | nil => intro t _; rfl
  | cons op rest ih =>
      intro t h
      calc (run (step t op) rest).delivered
          = (step t op).delivered := ih (step t op) (step_watcherFired_mono t op h)
        _ = t.delivered := step_delivered_stable_of_fired t op h

/-- C3 (amended): along any sequence of engine operations the `connected`
flag transitions from true to false at most once (the abort listener fires
only once), and it transitions from false to true only through an explicit
`Start` call; the code does not prevent a `Start` issued after termination
from making `IsConnected` return true again. -/
theorem connected_transitions (s0 s : HubConnState) (ops ops2 : List EngineOp)
    (hc : s.connected = false) (hr : (run s ops2).connected = true) :
    falls s0 ops ≤ 1 ∧ EngineOp.start ∈ ops2 :=
  ⟨falls_le_one ops s0, run_connected_needs_start ops2 s hc hr⟩

theorem connected_transitions_witness :
    falls (newHubConnection 32) [EngineOp.start, EngineOp.abort, EngineOp.watcherFire] ≤ 1 ∧
    EngineOp.start ∈ [EngineOp.start] :=
  connected_transitions (newHubConnection 32)
    (run (newHubConnection 32) [EngineOp.start, EngineOp.abort, EngineOp.watcherFire])
    [EngineOp.start, EngineOp.abort, EngineOp.watcherFire] [EngineOp.start]
    (by decide) (by decide)

/-- C3 counterexample: after a successful `Start` and a cancellation event
observed by the abort listener, a further `Start` call makes `IsConnected`
return true again, although the cancellation context has ended. -/
theorem start_after_termination_reconnects :
    (run (newHubConnection 32) [EngineOp.start, EngineOp.abort, EngineOp.watcherFire]).connected
      = false ∧
    (run (newHubConnection 32) [EngineOp.start, EngineOp.abort, EngineOp.watcherFire]).ctxErr
      = some GoError.contextCanceled ∧
    IsConnected (run (newHubConnection 32)
      [EngineOp.start, EngineOp.abort, EngineOp.watcherFire, EngineOp.start]) = true := by
  decide

/-- C9 (amended): when the abort listener observes cancellation while
`connected` is true, it delivers `eris.Wrap(parent ctx err,
"connection canceled")` to every channel registered in `abortWaiters` (a
wrapped cancellation error when the upstream cause is non-nil, nil when
cancellation came only from `Abort`), clears the list and runs at most
once: once it has fired, no later operation delivers anything further.  If
the connection was not connected when cancellation was observed (never
started, or already terminated), the waiters are not notified. -/
theorem abortWaiters_drain (s t : HubConnState) (ops : List EngineOp)
    (h1 : s.ctxErr.isSome = true) (h2 : s.watcherFired = false) (h3 : s.connected = true)
    (h4 : t.watcherFired = true) :
    step s EngineOp.watcherFire =
      { s with
        connected := false
        abortChans := []
        delivered := s.delivered ++
          s.abortChans.map (fun ch => (ch, erisWrap s.parentErr "connection canceled"))
        watcherFired := true } ∧
    (run t ops).delivered = t.delivered := by
  constructor
  · rw [step]
    rw [if_pos (by rw [h1, h2]; rfl)]
    unfold abortListener
    rw [if_pos h3]
  · exact run_delivered_stable ops t h4

theorem abortWaiters_drain_witness :
    step (run (newHubConnection 1)
        [EngineOp.registerWaiter 3, EngineOp.start,
         EngineOp.parentCancel (GoError.ioError "eof")]) EngineOp.watcherFire =
      { connected := false
        ctxErr := some (GoError.ioError "eof")
        parentErr := some (GoError.ioError "eof")
        lastWriteStamp := 0
        maximumReceiveMessageSize := 1
        abortChans := []
        watcherFired := true
        delivered := [(3, some (GoError.wrapped "connection canceled" (GoError.ioError "eof")))] } ∧
    (run (step (run (newHubConnection 1)
        [EngineOp.registerWaiter 3, EngineOp.start,
         EngineOp.parentCancel (GoError.ioError "eof")]) EngineOp.watcherFire)
      [EngineOp.registerWaiter 9]).delivered =
      (step (run (newHubConnection 1)
        [EngineOp.registerWaiter 3, EngineOp.start,
         EngineOp.parentCancel (GoError.ioError "eof")]) EngineOp.watcherFire).delivered :=
  abortWaiters_drain
    (run (newHubConnection 1)
      [EngineOp.registerWaiter 3, EngineOp.start,
       EngineOp.parentCancel (GoError.ioError "eof")])
    (step (run (newHubConnection 1)
      [EngineOp.registerWaiter 3, EngineOp.start,
       EngineOp.parentCancel (GoError.ioError "eof")]) EngineOp.watcherFire)
    [EngineOp.registerWaiter 9] (by decide) (by decide) (by decide) (by decide)

/-- C9 counterexample: on a connection that was never started, the abort
listener observes cancellation but, `connected` being false, neither
notifies the registered waiter channel nor clears the waiter list. -/
theorem abortWaiters_not_drained_unstarted :
    (run (newHubConnection 1)
      [EngineOp.registerWaiter 0, EngineOp.parentCancel (GoError.ioError "eof"),
       EngineOp.watcherFire]).delivered = [] ∧
    (run (newHubConnection 1)
      [EngineOp.registerWaiter 0, EngineOp.parentCancel (GoError.ioError "eof"),
       EngineOp.watcherFire]).abortChans = [0] ∧
    (run (newHubConnection 1)
      [EngineOp.registerWaiter 0, EngineOp.parentCancel (GoError.ioError "eof"),
       EngineOp.watcherFire]).watcherFired = true := by
  decide

end SignalR
